import Mathlib

/-!
Verification development for the ConnectionsContext repository
(src/connections.context.js): a per-tenant cache of Mongoose connection
handles.  The JavaScript class is embedded shallowly:

* `Connection` models the opaque `mongoose.Connection` handle through the
  fields the cache reads (`readyState`, `host`, `port`, `name`, `models`);
  the `id` field stands for object identity so that distinct handles are
  distinct values.
* The JS `Map<string, Connection>` is modelled as an association list with
  unique keys, with `mapGet` / `mapSet` / `mapDelete` mirroring
  `Map.get` / `Map.set` / `Map.delete` (`mapSet` replaces in place, as a JS
  `Map` does).
* The external driver (`mongoose.createConnection`, `connection.close()`,
  `ping()`) is an explicit oracle parameter: a function from the connection
  string to `Except String Connection` for connecting, an
  `Except String Unit` outcome for closing and pinging.
* Asynchronous methods that can observe a driver failure take the driver
  outcome as an argument and return plain values; an operation that cannot
  raise to its caller has a non-`Except` result type, and the exception of
  `getConnection` is the `Except` in `GetConnectionResult.result`.
* Effects on the driver are recorded in the results (`attempts` lists every
  connection string passed to `createConnection`, `closes` every handle
  passed to `close()`), so "no new connection attempt" and "no close
  attempted" are statable.
-/

/-- The slice of a `mongoose.Connection` observed by the cache.  `models`
holds the registered model names (`Object.keys(connection.models)`); `id`
models JS object identity. -/
structure Connection where
  id : Nat
  readyState : Nat
  host : String
  port : Nat
  name : String
  models : List String
deriving DecidableEq, Repr

/-- The immutable Mongoose options struct built in the constructor. -/
structure ConnectionOptions where
  maxPoolSize : Nat
  serverSelectionTimeoutMS : Nat
  socketTimeoutMS : Nat
  bufferCommands : Bool
deriving DecidableEq, Repr

/-- The options value the constructor builds. -/
def defaultConnectionOptions : ConnectionOptions :=
  { maxPoolSize := 10
    serverSelectionTimeoutMS := 5000
    socketTimeoutMS := 45000
    bufferCommands := false }

/-- State of the `ConnectionsContext` singleton: the `connections` map and
the immutable configuration strings. -/
structure ConnectionsContext where
  connections : List (String × Connection)
  baseConnectionString : String
  mainDbName : String
  connectionOptions : ConnectionOptions
deriving DecidableEq, Repr

/-- `Map.get`: first entry with the given key (keys are unique in a JS map). -/
def mapGet (m : List (String × Connection)) (k : String) : Option Connection :=
  match m with
  | [] => none
  | (k', c) :: rest => if k' = k then some c else mapGet rest k

/-- `Map.has`. -/
def mapHas (m : List (String × Connection)) (k : String) : Bool :=
  (mapGet m k).isSome

/-- `Map.delete`: removes the entry with the given key. -/
def mapDelete (m : List (String × Connection)) (k : String) :
    List (String × Connection) :=
  m.filter (fun p => p.1 ≠ k)

/-- `Map.set`: replaces the entry in place if the key is present, else
appends. -/
def mapSet (m : List (String × Connection)) (k : String) (c : Connection) :
    List (String × Connection) :=
  match m with
  | [] => [(k, c)]
  | (k', c') :: rest =>
      if k' = k then (k, c) :: rest else (k', c') :: mapSet rest k c

/-- JS truthiness of the `tenantId` argument (`string|null`): `null` and the
empty string are falsy. -/
def truthy (tenantId : Option String) : Bool :=
  match tenantId with
  | none => false
  | some t => t ≠ ""

/-- `const connectionKey = tenantId || "main"`. -/
def resolveKey (tenantId : Option String) : String :=
  match tenantId with
  | none => "main"
  | some t => if t = "" then "main" else t

/-- ``const dbName = tenantId ? `${this.mainDbName}_${tenantId}` :
this.mainDbName`` — note this tests the original `tenantId`, not the
resolved key. -/
def dbNameFor (ctx : ConnectionsContext) (tenantId : Option String) : String :=
  match tenantId with
  | none => ctx.mainDbName
  | some t => if t = "" then ctx.mainDbName else ctx.mainDbName ++ "_" ++ t

/-- The error thrown by `getConnection` on driver failure:
``new Error(`Database connection failed: ${error.message}`)``. -/
structure ConnectionError where
  message : String
deriving DecidableEq, Repr

deriving instance DecidableEq for Except

/-- Result of one `getConnection` call: the returned handle or thrown error,
the updated singleton state, and the driver effects performed (`attempts`:
connection strings passed to `mongoose.createConnection`; `closes`: handles
passed to `close()` — `getConnection` never closes a handle). -/
structure GetConnectionResult where
  result : Except ConnectionError Connection
  ctx : ConnectionsContext
  attempts : List String
  closes : List Connection
deriving DecidableEq, Repr

/-- The `try` block of `getConnection` reached on a cache miss: build the
connection string, ask the driver, and either store and return the new
handle or throw a `ConnectionError` wrapping the cause message. -/
def connectMiss (ctx : ConnectionsContext) (tenantId : Option String)
    (connectionKey : String) (driver : String → Except String Connection) :
    GetConnectionResult :=
  let dbName := dbNameFor ctx tenantId
  let connectionString := ctx.baseConnectionString ++ "/" ++ dbName
  match driver connectionString with
  | .ok connection =>
      { result := .ok connection
        ctx := { ctx with
                   connections := mapSet ctx.connections connectionKey connection }
        attempts := [connectionString]
        closes := [] }
  | .error msg =>
      { result := .error ⟨"Database connection failed: " ++ msg⟩
        ctx := ctx
        attempts := [connectionString]
        closes := [] }

/-- `getConnection(tenantId = null)`: cache hit when the stored handle has
`readyState === 1`; otherwise the stale entry (if any) is deleted and a
fresh connection is attempted. -/
def getConnection (ctx : ConnectionsContext) (tenantId : Option String)
    (driver : String → Except String Connection) : GetConnectionResult :=
  let connectionKey := resolveKey tenantId
  match mapGet ctx.connections connectionKey with
  | some connection =>
      if connection.readyState = 1 then
        { result := .ok connection, ctx := ctx, attempts := [], closes := [] }
      else
        connectMiss
          { ctx with connections := mapDelete ctx.connections connectionKey }
          tenantId connectionKey driver
  | none => connectMiss ctx tenantId connectionKey driver

/-- The `"error"` listener registered by `setupConnectionListeners`: logs and
deletes the entry; it neither throws nor touches anything else. -/
def onConnectionError (ctx : ConnectionsContext) (connectionKey : String) :
    ConnectionsContext :=
  { ctx with connections := mapDelete ctx.connections connectionKey }

/-- The `"disconnected"` listener: logs and deletes the entry. -/
def onConnectionDisconnected (ctx : ConnectionsContext)
    (connectionKey : String) : ConnectionsContext :=
  { ctx with connections := mapDelete ctx.connections connectionKey }

/-- `getActiveConnections()`: builds a fresh map of the entries whose handle
has `readyState === 1`. -/
def getActiveConnections (ctx : ConnectionsContext) :
    List (String × Connection) :=
  ctx.connections.filter (fun p => p.2.readyState = 1)

/-- `closeConnection(tenantId = null)`: no-op on a missing key; otherwise
awaits `connection.close()` (outcome `closeResult`, only logged) and deletes
the entry in the `finally` block regardless of that outcome.  Returns the
new state and the handles on which `close()` was called. -/
def closeConnection (ctx : ConnectionsContext) (tenantId : Option String)
    (closeResult : Except String Unit) :
    ConnectionsContext × List Connection :=
  let connectionKey := resolveKey tenantId
  match mapGet ctx.connections connectionKey with
  | none => (ctx, [])
  | some connection =>
      match closeResult with
      | .ok _ =>
          ({ ctx with connections := mapDelete ctx.connections connectionKey },
           [connection])
      | .error _ =>
          ({ ctx with connections := mapDelete ctx.connections connectionKey },
           [connection])

/-- `closeAllConnections()`: starts a `close()` for every entry, each with
its own `.catch` so that outcomes settle independently, then clears the map.
Returns the new state and the per-key settled outcomes. -/
def closeAllConnections (ctx : ConnectionsContext)
    (closeResults : String → Except String Unit) :
    ConnectionsContext × List (String × Except String Unit) :=
  let settled := ctx.connections.map (fun p => (p.1, closeResults p.1))
  ({ ctx with connections := [] }, settled)

/-- One entry of the object returned by `healthCheck()`. -/
inductive HealthReport where
  | healthy (readyState : Nat) (host : String) (port : Nat) (dbName : String)
  | unhealthy (error : String) (readyState : Nat)
deriving DecidableEq, Repr

/-- The report `healthCheck` records for one connection, from the outcome of
`connection.db.admin().ping()`. -/
def healthReportFor (ping : Connection → Except String Unit)
    (connection : Connection) : HealthReport :=
  match ping connection with
  | .ok _ =>
      .healthy connection.readyState connection.host connection.port
        connection.name
  | .error msg => .unhealthy msg connection.readyState

/-- `healthCheck()`: pings every entry, collecting one report per key; a
failing ping yields an `unhealthy` report for that key only.  The state
component of the result is the (untouched) singleton state. -/
def healthCheck (ctx : ConnectionsContext)
    (ping : Connection → Except String Unit) :
    List (String × HealthReport) × ConnectionsContext :=
  (ctx.connections.map (fun p => (p.1, healthReportFor ping p.2)), ctx)

/-- The object returned by `getConnectionInfo` for an existing entry. -/
structure ConnectionInfo where
  key : String
  readyState : Nat
  host : String
  port : Nat
  dbName : String
  collections : List String
deriving DecidableEq, Repr

/-- `getConnectionInfo(tenantId = null)`: pure lookup, `null` (here `none`)
for an absent key. -/
def getConnectionInfo (ctx : ConnectionsContext) (tenantId : Option String) :
    Option ConnectionInfo :=
  let connectionKey := resolveKey tenantId
  match mapGet ctx.connections connectionKey with
  | none => none
  | some connection =>
      some { key := connectionKey
             readyState := connection.readyState
             host := connection.host
             port := connection.port
             dbName := connection.name
             collections := connection.models }

/-! ### Association-list lemmas for the `Map` model -/

theorem mapGet_mapDelete_self (m : List (String × Connection)) (k : String) :
    mapGet (mapDelete m k) k = none := by
  induction m with
  | nil => rfl
  | cons hd tl ih =>
      by_cases h : hd.1 = k
      · simpa [mapDelete, List.filter, h] using ih
      · simpa [mapDelete, List.filter, h, mapGet] using ih

theorem mapGet_mapSet_self (m : List (String × Connection)) (k : String)
    (c : Connection) : mapGet (mapSet m k c) k = some c := by
  induction m with
  | nil => simp [mapSet, mapGet]
  | cons hd tl ih =>
      by_cases h : hd.1 = k
      · simp [mapSet, h, mapGet]
      · cases hd with
        | mk k' c' => simpa [mapSet, h, mapGet, show k' ≠ k from h] using ih

theorem mapGet_eq_none_of_not_mem (m : List (String × Connection)) (k : String)
    (h : k ∉ m.map Prod.fst) : mapGet m k = none := by
  induction m with
  | nil => rfl
  | cons hd tl ih =>
      simp only [List.map_cons, List.mem_cons, not_or] at h
      rw [mapGet, if_neg (fun hh => h.1 hh.symm)]
      exact ih h.2

theorem mapGet_filter_none (m : List (String × Connection))
    (p : String × Connection → Bool) (k : String) (h : mapGet m k = none) :
    mapGet (m.filter p) k = none := by
  induction m with
  | nil => rfl
  | cons hd tl ih =>
      simp only [mapGet] at h
      by_cases hk : hd.1 = k
      · simp [hk] at h
      · by_cases hp : p hd
        · simpa [List.filter, hp, mapGet, hk] using ih (by simpa [hk] using h)
        · simpa [List.filter, hp] using ih (by simpa [hk] using h)

theorem mapGet_filter (m : List (String × Connection))
    (p : String × Connection → Bool) (k : String) (c : Connection)
    (hnd : (m.map Prod.fst).Nodup) :
    mapGet (m.filter p) k = some c ↔
      (mapGet m k = some c ∧ p (k, c) = true) := by
  induction m with
  | nil => simp [mapGet]
  | cons hd tl ih =>
      simp only [List.map_cons, List.nodup_cons] at hnd
      cases hd with
      | mk k' c' =>
        by_cases hk : k' = k
        · subst hk
          by_cases hp : p (k', c')
          · constructor
            · intro hget
              simp [List.filter, hp, mapGet] at hget
              subst hget
              exact ⟨by simp [mapGet], hp⟩
            · intro ⟨hget, _⟩
              simp [mapGet] at hget
              subst hget
              simp [List.filter, hp, mapGet]
          · constructor
            · intro hget
              rw [show ((k', c') :: tl).filter p = tl.filter p by
                    simp [List.filter, hp]] at hget
              have : mapGet tl k' = none :=
                mapGet_eq_none_of_not_mem tl k' hnd.1
              rw [mapGet_filter_none tl p k' this] at hget
              exact absurd hget (by simp)
            · intro ⟨hget, hpc⟩
              simp [mapGet] at hget
              subst hget
              exact absurd hpc (by simpa using hp)
        · by_cases hp : p (k', c')
          · rw [show ((k', c') :: tl).filter p = (k', c') :: tl.filter p by
                  simp [List.filter, hp]]
            simp only [mapGet, if_neg hk]
            exact ih hnd.2
          · rw [show ((k', c') :: tl).filter p = tl.filter p by
                  simp [List.filter, hp]]
            simp only [mapGet, if_neg hk]
            exact ih hnd.2

theorem connectMiss_attempts (ctx : ConnectionsContext)
    (tenantId : Option String) (connectionKey : String)
    (driver : String → Except String Connection) :
    (connectMiss ctx tenantId connectionKey driver).attempts =
      [ctx.baseConnectionString ++ "/" ++ dbNameFor ctx tenantId] := by
  cases h : driver (ctx.baseConnectionString ++ "/" ++ dbNameFor ctx tenantId) <;>
    simp [connectMiss, h]

theorem connectMiss_closes (ctx : ConnectionsContext)
    (tenantId : Option String) (connectionKey : String)
    (driver : String → Except String Connection) :
    (connectMiss ctx tenantId connectionKey driver).closes = [] := by
  cases h : driver (ctx.baseConnectionString ++ "/" ++ dbNameFor ctx tenantId) <;>
    simp [connectMiss, h]

theorem connectMiss_ok (ctx : ConnectionsContext) (tenantId : Option String)
    (connectionKey : String) (driver : String → Except String Connection)
    (c : Connection)
    (h : (connectMiss ctx tenantId connectionKey driver).result = .ok c) :
    (connectMiss ctx tenantId connectionKey driver).ctx =
      { ctx with connections := mapSet ctx.connections connectionKey c } := by
  cases hd : driver (ctx.baseConnectionString ++ "/" ++ dbNameFor ctx tenantId) with
  | ok c' =>
      simp [connectMiss, hd] at h ⊢
      rw [h]
  | error msg => simp [connectMiss, hd] at h

theorem connectMiss_config (ctx : ConnectionsContext) (tenantId : Option String)
    (connectionKey : String) (driver : String → Except String Connection) :
    (connectMiss ctx tenantId connectionKey driver).ctx.baseConnectionString =
        ctx.baseConnectionString ∧
      (connectMiss ctx tenantId connectionKey driver).ctx.mainDbName =
        ctx.mainDbName := by
  cases hd : driver (ctx.baseConnectionString ++ "/" ++ dbNameFor ctx tenantId) <;>
    simp [connectMiss, hd]

/-! ### Example fixtures used by the witness and counterexample theorems -/

/-- A ready handle, as the driver would return it. -/
def connEx : Connection :=
  { id := 1, readyState := 1, host := "cluster-shard-00", port := 27017,
    name := "app_t1", models := ["User"] }

/-- A stale handle (`readyState` ≠ 1). -/
def staleConnEx : Connection :=
  { id := 2, readyState := 0, host := "cluster-shard-00", port := 27017,
    name := "app_t1", models := [] }

/-- A context with no cached connections and the spec's scenario
configuration. -/
def ctxEx : ConnectionsContext :=
  { connections := [], baseConnectionString := "mongodb+srv://cluster",
    mainDbName := "app", connectionOptions := defaultConnectionOptions }

/-- A context caching a ready handle under `"t1"` and a stale one under
`"main"`. -/
def ctxEx2 : ConnectionsContext :=
  { ctxEx with connections := [("t1", connEx), ("main", staleConnEx)] }

/-- A driver that always connects successfully, returning `connEx`. -/
def okDriver : String → Except String Connection := fun _ => .ok connEx

/-- A driver that always fails with cause message `"boom"`. -/
def failDriver : String → Except String Connection := fun _ => .error "boom"

/-! ### Claim theorems -/

/-- Claim C1: for every tenant key, if the cached record's handle reports
`readyState = 1`, `getConnection` returns that handle unchanged with no
driver connect attempt and no state change (so a second immediate call
returns the same handle instance); if a record exists but is not ready, the
stale entry is deleted from the map before the fresh connection is
attempted (the whole call equals `connectMiss` on the evicted state), and
no `close()` is ever issued on the stale handle. -/
theorem getConnection_cache_hit_and_stale_eviction
    (ctx : ConnectionsContext) (tenantId : Option String)
    (driver : String → Except String Connection) :
    (∀ c, mapGet ctx.connections (resolveKey tenantId) = some c →
        c.readyState = 1 →
        getConnection ctx tenantId driver =
          { result := .ok c, ctx := ctx, attempts := [], closes := [] }) ∧
    (∀ c, mapGet ctx.connections (resolveKey tenantId) = some c →
        c.readyState ≠ 1 →
        getConnection ctx tenantId driver =
          connectMiss
            { ctx with
                connections := mapDelete ctx.connections (resolveKey tenantId) }
            tenantId (resolveKey tenantId) driver) ∧
    (getConnection ctx tenantId driver).closes = [] ∧
    (∀ c, (getConnection ctx tenantId driver).result = .ok c →
        c.readyState = 1 →
        getConnection (getConnection ctx tenantId driver).ctx tenantId driver =
          { result := .ok c, ctx := (getConnection ctx tenantId driver).ctx,
            attempts := [], closes := [] }) := by
  refine ⟨?_, ?_, ?_, ?_⟩
  · intro c hget hready
    simp only [getConnection, hget, hready, if_true]
  · intro c hget hready
    simp only [getConnection, hget, if_neg hready]
  · cases hget : mapGet ctx.connections (resolveKey tenantId) with
    | some c =>
        by_cases hready : c.readyState = 1
        · simp only [getConnection, hget, hready, if_true]
        · simp only [getConnection, hget, if_neg hready]
          exact connectMiss_closes _ _ _ _
    | none =>
        simp only [getConnection, hget]
        exact connectMiss_closes _ _ _ _
  · intro c hres hready
    cases hget : mapGet ctx.connections (resolveKey tenantId) with
    | some c0 =>
        by_cases h0 : c0.readyState = 1
        · have heq : getConnection ctx tenantId driver =
              { result := .ok c0, ctx := ctx, attempts := [], closes := [] } := by
            simp only [getConnection, hget, h0, if_true]
          rw [heq] at hres ⊢
          simp only at hres
          cases hres
          simp only [getConnection, hget, hready, if_true]
        · have heq : getConnection ctx tenantId driver =
              connectMiss
                { ctx with
                    connections := mapDelete ctx.connections (resolveKey tenantId) }
                tenantId (resolveKey tenantId) driver := by
            simp only [getConnection, hget, if_neg h0]
          rw [heq] at hres ⊢
          have hctx := connectMiss_ok _ _ _ _ _ hres
          rw [hctx]
          simp only [getConnection, mapGet_mapSet_self, hready, if_true]
    | none =>
        have heq : getConnection ctx tenantId driver =
            connectMiss ctx tenantId (resolveKey tenantId) driver := by
          simp only [getConnection, hget]
        rw [heq] at hres ⊢
        have hctx := connectMiss_ok _ _ _ _ _ hres
        rw [hctx]
        simp only [getConnection, mapGet_mapSet_self, hready, if_true]

/-- Witness for C1 at concrete inputs: with `"t1"` cached ready and
`"main"` cached stale, a `getConnection("t1")` is a pure cache hit, a
`getConnection(null)` equals the connect path on the evicted state, and a
successful fresh connect followed by a second call returns the same
handle. -/
theorem getConnection_cache_hit_and_stale_eviction_witness :
    getConnection ctxEx2 (some "t1") failDriver =
        { result := .ok connEx, ctx := ctxEx2, attempts := [], closes := [] } ∧
      getConnection ctxEx2 none okDriver =
        connectMiss
          { ctxEx2 with connections := mapDelete ctxEx2.connections "main" }
          none "main" okDriver ∧
      getConnection (getConnection ctxEx none okDriver).ctx none okDriver =
        { result := .ok connEx, ctx := (getConnection ctxEx none okDriver).ctx,
          attempts := [], closes := [] } :=
  ⟨(getConnection_cache_hit_and_stale_eviction ctxEx2 (some "t1") failDriver).1
      connEx (by decide) (by decide),
   (getConnection_cache_hit_and_stale_eviction ctxEx2 none okDriver).2.1
      staleConnEx (by decide) (by decide),
   (getConnection_cache_hit_and_stale_eviction ctxEx none okDriver).2.2.2
      connEx (by decide) (by decide)⟩

theorem getConnection_of_none (ctx : ConnectionsContext)
    (tenantId : Option String) (driver : String → Except String Connection)
    (h : mapGet ctx.connections (resolveKey tenantId) = none) :
    getConnection ctx tenantId driver =
      connectMiss ctx tenantId (resolveKey tenantId) driver := by
  simp only [getConnection, h]

theorem getConnection_of_stale (ctx : ConnectionsContext)
    (tenantId : Option String) (driver : String → Except String Connection)
    (c : Connection)
    (h : mapGet ctx.connections (resolveKey tenantId) = some c)
    (hs : c.readyState ≠ 1) :
    getConnection ctx tenantId driver =
      connectMiss
        { ctx with connections := mapDelete ctx.connections (resolveKey tenantId) }
        tenantId (resolveKey tenantId) driver := by
  simp only [getConnection, h, if_neg hs]

/-- Claim C2: the `error` and `disconnected` listeners delete the record for
their key immediately (the listeners return normally, raising nothing), so
afterwards the key is absent from the map, absent from
`getActiveConnections`, and the next `getConnection` for that key performs
exactly one fresh driver connect attempt.  The key is quantified as
`resolveKey tenantId`, which ranges over every key the cache can store. -/
theorem listeners_evict_and_force_reconnect (ctx : ConnectionsContext)
    (tenantId : Option String) (driver : String → Except String Connection) :
    mapGet (onConnectionError ctx (resolveKey tenantId)).connections
        (resolveKey tenantId) = none ∧
      mapGet (onConnectionDisconnected ctx (resolveKey tenantId)).connections
        (resolveKey tenantId) = none ∧
      mapGet (getActiveConnections (onConnectionError ctx (resolveKey tenantId)))
        (resolveKey tenantId) = none ∧
      mapGet
        (getActiveConnections (onConnectionDisconnected ctx (resolveKey tenantId)))
        (resolveKey tenantId) = none ∧
      (getConnection (onConnectionError ctx (resolveKey tenantId)) tenantId
          driver).attempts.length = 1 ∧
      (getConnection (onConnectionDisconnected ctx (resolveKey tenantId)) tenantId
          driver).attempts.length = 1 := by
  have hdel : mapGet (mapDelete ctx.connections (resolveKey tenantId))
      (resolveKey tenantId) = none := mapGet_mapDelete_self _ _
  refine ⟨hdel, hdel, ?_, ?_, ?_, ?_⟩
  · exact mapGet_filter_none _ _ _ hdel
  · exact mapGet_filter_none _ _ _ hdel
  · rw [getConnection_of_none _ _ _ hdel, connectMiss_attempts]
    rfl
  · rw [getConnection_of_none _ _ _ hdel, connectMiss_attempts]
    rfl

/-- Counterexample to claim C3 as stated: with base address
`mongodb+srv://cluster` and default DB `app`, the explicit tenant key
`"main"` resolves to the key `"main"`, yet the cache-miss connect attempt
targets `mongodb+srv://cluster/app_main`, not `mongodb+srv://cluster/app`:
the database name is chosen by truthiness of the original `tenantId`
argument, not by the resolved key. -/
theorem getConnection_explicit_main_counterexample :
    resolveKey (some "main") = "main" ∧
      (getConnection ctxEx (some "main") okDriver).attempts =
        ["mongodb+srv://cluster/app_main"] ∧
      "mongodb+srv://cluster/app_main" ≠ "mongodb+srv://cluster/app" := by
  decide

/-- Claim C3 (amended): on any cache miss (no record, or only a non-ready
record), `getConnection` passes the driver exactly the address
`{baseConnectionString}/{dbName}` where `dbName` is `mainDbName` when the
`tenantId` argument is absent or the empty string, and
`{mainDbName}_{tenantId}` for every other `tenantId` — including the
explicit string `"main"`. -/
theorem getConnection_target_address (ctx : ConnectionsContext)
    (tenantId : Option String) (driver : String → Except String Connection)
    (hmiss : ∀ c, mapGet ctx.connections (resolveKey tenantId) = some c →
      c.readyState ≠ 1) :
    (getConnection ctx tenantId driver).attempts =
      [ctx.baseConnectionString ++ "/" ++
        match tenantId with
        | none => ctx.mainDbName
        | some t => if t = "" then ctx.mainDbName
                    else ctx.mainDbName ++ "_" ++ t] := by
  cases hget : mapGet ctx.connections (resolveKey tenantId) with
  | some c =>
      rw [getConnection_of_stale _ _ _ _ hget (hmiss c hget), connectMiss_attempts]
      cases tenantId <;> rfl
  | none =>
      rw [getConnection_of_none _ _ _ hget, connectMiss_attempts]
      cases tenantId <;> rfl

/-- Witness for C3 (amended) at the spec's scenario: `getConnection("t1")`
attempts `mongodb+srv://cluster/app_t1` and `getConnection(null)` attempts
`mongodb+srv://cluster/app`. -/
theorem getConnection_target_address_witness :
    (getConnection ctxEx (some "t1") okDriver).attempts =
        ["mongodb+srv://cluster/app_t1"] ∧
      (getConnection ctxEx none okDriver).attempts =
        ["mongodb+srv://cluster/app"] :=
  ⟨getConnection_target_address ctxEx (some "t1") okDriver
      (fun c hc => by simp [ctxEx, mapGet] at hc),
   getConnection_target_address ctxEx none okDriver
      (fun c hc => by simp [ctxEx, mapGet] at hc)⟩

theorem connectMiss_fail (ctx : ConnectionsContext) (tenantId : Option String)
    (connectionKey : String) (driver : String → Except String Connection)
    (msg : String) (hfail : ∀ s, driver s = .error msg) :
    connectMiss ctx tenantId connectionKey driver =
      { result := .error ⟨"Database connection failed: " ++ msg⟩
        ctx := ctx
        attempts := [ctx.baseConnectionString ++ "/" ++ dbNameFor ctx tenantId]
        closes := [] } := by
  simp [connectMiss, hfail]

/-- Counterexample to claim C4 as stated: when the driver fails with the
same cause for two different tenant keys, `getConnection` raises the very
same error value — `Database connection failed: boom` — for both, so the
raised error cannot carry the tenant key (the key appears only in the log
line). -/
theorem connectionError_lacks_tenant_key_counterexample :
    (getConnection ctxEx (some "t1") failDriver).result =
        (getConnection ctxEx (some "t2") failDriver).result ∧
      (getConnection ctxEx (some "t1") failDriver).result =
        .error ⟨"Database connection failed: boom"⟩ := by
  decide

/-- Claim C4 (amended): when the driver fails to establish a connection on
a cache miss, `getConnection` stores nothing (the map equals its state
after any stale-entry eviction), makes exactly one connect attempt (no
retry), and raises an error whose message is `Database connection failed: `
followed by the underlying cause message; the tenant key is not part of
the error. -/
theorem getConnection_failure_behavior (ctx : ConnectionsContext)
    (tenantId : Option String) (msg : String)
    (driver : String → Except String Connection)
    (hfail : ∀ s, driver s = .error msg)
    (hmiss : ∀ c, mapGet ctx.connections (resolveKey tenantId) = some c →
      c.readyState ≠ 1) :
    (getConnection ctx tenantId driver).result =
        .error ⟨"Database connection failed: " ++ msg⟩ ∧
      (mapGet ctx.connections (resolveKey tenantId) = none →
        (getConnection ctx tenantId driver).ctx = ctx) ∧
      (∀ c, mapGet ctx.connections (resolveKey tenantId) = some c →
        (getConnection ctx tenantId driver).ctx =
          { ctx with
              connections := mapDelete ctx.connections (resolveKey tenantId) }) ∧
      (getConnection ctx tenantId driver).attempts.length = 1 := by
  cases hget : mapGet ctx.connections (resolveKey tenantId) with
  | some c =>
      rw [getConnection_of_stale _ _ _ _ hget (hmiss c hget),
        connectMiss_fail _ _ _ _ _ hfail]
      exact ⟨rfl, fun hn => Option.noConfusion hn, fun c' _ => rfl, rfl⟩
  | none =>
      rw [getConnection_of_none _ _ _ hget, connectMiss_fail _ _ _ _ _ hfail]
      exact ⟨rfl, fun _ => rfl, fun c' hc => Option.noConfusion hc, rfl⟩

/-- Witness for C4 (amended): a failing connect for `"t1"` on the empty
cache yields the error `Database connection failed: boom`, leaves the state
unchanged, and makes exactly one attempt. -/
theorem getConnection_failure_behavior_witness :
    (getConnection ctxEx (some "t1") failDriver).result =
        .error ⟨"Database connection failed: boom"⟩ ∧
      (getConnection ctxEx (some "t1") failDriver).ctx = ctxEx ∧
      (getConnection ctxEx (some "t1") failDriver).attempts.length = 1 :=
  have h := getConnection_failure_behavior ctxEx (some "t1") "boom" failDriver
    (fun _ => rfl) (fun c hc => by simp [ctxEx, mapGet] at hc)
  ⟨h.1, h.2.1 (by decide), h.2.2.2⟩

/-- Claim C5: `closeConnection` never raises — its outcome does not depend
on whether the driver close succeeded or failed; on an absent key it is a
no-op leaving the state untouched and closing nothing; on a present key it
issues exactly one `close()` on the cached handle and deletes the record in
the `finally` step regardless of the close outcome. -/
theorem closeConnection_never_raises_and_cleans_up (ctx : ConnectionsContext)
    (tenantId : Option String) (r r' : Except String Unit) :
    closeConnection ctx tenantId r = closeConnection ctx tenantId r' ∧
      (mapGet ctx.connections (resolveKey tenantId) = none →
        closeConnection ctx tenantId r = (ctx, [])) ∧
      (∀ c, mapGet ctx.connections (resolveKey tenantId) = some c →
        (closeConnection ctx tenantId r).1.connections =
            mapDelete ctx.connections (resolveKey tenantId) ∧
          mapGet (closeConnection ctx tenantId r).1.connections
            (resolveKey tenantId) = none ∧
          (closeConnection ctx tenantId r).2 = [c]) := by
  cases hget : mapGet ctx.connections (resolveKey tenantId) with
  | none =>
      have hcc : ∀ s : Except String Unit,
          closeConnection ctx tenantId s = (ctx, []) := by
        intro s
        simp only [closeConnection, hget]
      exact ⟨(hcc r).trans (hcc r').symm, fun _ => hcc r,
        fun c hc => Option.noConfusion hc⟩
  | some c0 =>
      have hcc : ∀ s : Except String Unit,
          closeConnection ctx tenantId s =
            ({ ctx with
                 connections := mapDelete ctx.connections (resolveKey tenantId) },
             [c0]) := by
        intro s
        cases s <;> simp only [closeConnection, hget]
      refine ⟨(hcc r).trans (hcc r').symm, fun hn => Option.noConfusion hn,
        fun c hc => ?_⟩
      have hc' : c0 = c := by injection hc
      subst hc'
      rw [hcc r]
      exact ⟨rfl, mapGet_mapDelete_self _ _, rfl⟩

/-- Witness for C5: closing the absent key `"t1"` on the empty cache is a
no-op even when the driver close would fail, and closing the present key
`"t1"` with a failing driver close still deletes the record and closes
exactly that handle. -/
theorem closeConnection_never_raises_and_cleans_up_witness :
    closeConnection ctxEx (some "t1") (.error "close failed") = (ctxEx, []) ∧
      mapGet (closeConnection ctxEx2 (some "t1")
        (.error "close failed")).1.connections "t1" = none ∧
      (closeConnection ctxEx2 (some "t1") (.error "close failed")).2 =
        [connEx] :=
  have h1 := closeConnection_never_raises_and_cleans_up ctxEx (some "t1")
    (.error "close failed") (.ok ())
  have h2 := closeConnection_never_raises_and_cleans_up ctxEx2 (some "t1")
    (.error "close failed") (.ok ())
  ⟨h1.2.1 (by decide), (h2.2.2 connEx (by decide)).2.1,
    (h2.2.2 connEx (by decide)).2.2⟩

/-- Claim C6: `closeAllConnections` completes normally with a state that
does not depend on any close outcome, leaves the map completely empty (so
`getActiveConnections` is empty afterwards), and settles one close outcome
per record — no failing close aborts the others. -/
theorem closeAllConnections_empties_entries (ctx : ConnectionsContext)
    (closeResults closeResults' : String → Except String Unit) :
    (closeAllConnections ctx closeResults).1.connections = [] ∧
      getActiveConnections (closeAllConnections ctx closeResults).1 = [] ∧
      (closeAllConnections ctx closeResults).2.map Prod.fst =
        ctx.connections.map Prod.fst ∧
      (closeAllConnections ctx closeResults).1 =
        (closeAllConnections ctx closeResults').1 := by
  refine ⟨rfl, rfl, ?_, rfl⟩
  simp [closeAllConnections]

/-- Claim C7: `healthCheck` returns the state untouched (no eviction, even
on ping failure) together with one report per current record, in key order;
a record's report is `healthy` with `readyState`/`host`/`port`/`dbName`
when its ping succeeds and `unhealthy` with the error message and
`readyState` when it fails, each probe independent of the others. -/
theorem healthCheck_readonly_reports (ctx : ConnectionsContext)
    (ping : Connection → Except String Unit) :
    (healthCheck ctx ping).2 = ctx ∧
      (healthCheck ctx ping).1.map Prod.fst = ctx.connections.map Prod.fst ∧
      (∀ k c, (k, c) ∈ ctx.connections →
        (k, healthReportFor ping c) ∈ (healthCheck ctx ping).1) ∧
      (∀ c, ping c = .ok () →
        healthReportFor ping c =
          .healthy c.readyState c.host c.port c.name) ∧
      (∀ c msg, ping c = .error msg →
        healthReportFor ping c = .unhealthy msg c.readyState) := by
  refine ⟨rfl, ?_, ?_, ?_, ?_⟩
  · simp [healthCheck]
  · intro k c hmem
    exact List.mem_map.2 ⟨(k, c), hmem, rfl⟩
  · intro c hp
    simp [healthReportFor, hp]
  · intro c msg hp
    simp [healthReportFor, hp]

/-- Witness for C7: with every ping failing, `healthCheck` leaves the
two-record state untouched and reports `"t1"` unhealthy with the ping
error message. -/
theorem healthCheck_readonly_reports_witness :
    (healthCheck ctxEx2 (fun _ => .error "ping timeout")).2 = ctxEx2 ∧
      ("t1", HealthReport.unhealthy "ping timeout" 1) ∈
        (healthCheck ctxEx2 (fun _ => .error "ping timeout")).1 :=
  have h := healthCheck_readonly_reports ctxEx2 (fun _ => .error "ping timeout")
  ⟨h.1, by
    have hm := h.2.2.1 "t1" connEx (by decide)
    have hr := h.2.2.2.2 connEx "ping timeout" rfl
    rw [hr] at hm
    exact hm⟩

/-- Claim C8: `getActiveConnections` is a pure read returning a fresh list
holding exactly the records whose handle reports `readyState = 1`: a key
maps to `c` in the snapshot iff it maps to `c` in the cache and `c` is
ready, and every snapshot entry is a ready entry of the cache. -/
theorem getActiveConnections_snapshot (ctx : ConnectionsContext) (k : String)
    (c : Connection) (hnd : (ctx.connections.map Prod.fst).Nodup) :
    (mapGet (getActiveConnections ctx) k = some c ↔
        mapGet ctx.connections k = some c ∧ c.readyState = 1) ∧
      (∀ p, p ∈ getActiveConnections ctx →
        p ∈ ctx.connections ∧ p.2.readyState = 1) := by
  constructor
  · rw [getActiveConnections, mapGet_filter _ _ _ _ hnd]
    simp
  · intro p hp
    simp only [getActiveConnections, List.mem_filter] at hp
    exact ⟨hp.1, by simpa using hp.2⟩

/-- Witness for C8: in the two-record state, the ready `"t1"` handle is in
the snapshot. -/
theorem getActiveConnections_snapshot_witness :
    mapGet (getActiveConnections ctxEx2) "t1" = some connEx :=
  (getActiveConnections_snapshot ctxEx2 "t1" connEx (by decide)).1.2
    ⟨by decide, by decide⟩

/-- Claim C9: `getConnectionInfo` is a pure lookup with no driver
interaction: `none` for an absent resolved key, and for a present record a
structure carrying the key, `readyState`, `host`, `port`, `dbName` and the
registered model names. -/
theorem getConnectionInfo_pure_lookup (ctx : ConnectionsContext)
    (tenantId : Option String) :
    (mapGet ctx.connections (resolveKey tenantId) = none →
        getConnectionInfo ctx tenantId = none) ∧
      (∀ c, mapGet ctx.connections (resolveKey tenantId) = some c →
        getConnectionInfo ctx tenantId =
          some { key := resolveKey tenantId, readyState := c.readyState,
                 host := c.host, port := c.port, dbName := c.name,
                 collections := c.models }) := by
  constructor
  · intro h
    simp only [getConnectionInfo, h]
  · intro c h
    simp only [getConnectionInfo, h]

/-- Witness for C9: the absent key `"t1"` yields `none` on the empty cache,
and the present key `"t1"` yields its full info record. -/
theorem getConnectionInfo_pure_lookup_witness :
    getConnectionInfo ctxEx (some "t1") = none ∧
      getConnectionInfo ctxEx2 (some "t1") =
        some { key := "t1", readyState := 1, host := "cluster-shard-00",
               port := 27017, dbName := "app_t1", collections := ["User"] } :=
  ⟨(getConnectionInfo_pure_lookup ctxEx (some "t1")).1 (by decide),
    (getConnectionInfo_pure_lookup ctxEx2 (some "t1")).2 connEx (by decide)⟩

/-- Claim C10: because key resolution uses JS truthiness
(`tenantId || "main"`) and the database-name choice tests the same
truthiness, passing the empty string behaves identically to passing
`null`/absent in `getConnection`, `closeConnection` and
`getConnectionInfo`. -/
theorem empty_string_tenant_is_main (ctx : ConnectionsContext)
    (driver : String → Except String Connection) (r : Except String Unit) :
    getConnection ctx (some "") driver = getConnection ctx none driver ∧
      closeConnection ctx (some "") r = closeConnection ctx none r ∧
      getConnectionInfo ctx (some "") = getConnectionInfo ctx none := by
  refine ⟨?_, ?_, ?_⟩ <;> rfl
